import Mathlib

/-!
Verification development for the f-promise coroutine library
(`src/index.ts`).  The code is shallowly embedded: each JavaScript
function that the specification talks about is translated into an
executable Lean definition over explicit state, and the specification's
claims are proved (or refuted) about those definitions.

Conventions of the embedding:
* JavaScript numbers holding queue capacities / funnel ceilings are
  modelled as `Int` (the library uses `-1` as "unbounded" / "no limit").
* The single process-wide context cell (`globals.context`) is a field of
  an explicit global-state record that is threaded through.
* `setImmediate` / `process.nextTick` deferral does not change which
  value a callback eventually receives, so a deferred delivery is
  recorded at the point it is scheduled.
* Suspension (`fibers.yield()`) is modelled by a function parameter that
  describes everything that happens while the fiber is suspended: how
  the global state evolves and whether the fiber is resumed with a value
  (`fiber.run`) or an injected error (`fiber.throwInto`).
-/

/-! ## Error objects and the stack-trace policies (`fullStackError`, `cleanFiberStack`) -/

/-- A JavaScript `Error` object as far as the library observes it:
an identity (object identity), a constructor (kind), a message, a stack
string (`e.stack || ''` collapses a missing stack to `""`), and whether
`Object.defineProperty` on `stack` would fail (frozen object). -/
structure ErrObj where
  eid : Nat
  ctor : String
  message : String
  stack : String
  frozen : Bool
deriving Repr, DecidableEq

/-- A value thrown/injected through `wait`/`run`: either an `Error`
instance or any other (non-`Error`-shaped) value of type `A`. -/
inductive JsValue (A : Type) where
  | errV : ErrObj → JsValue A
  | nonError : A → JsValue A
deriving Repr, DecidableEq

/-- Embeds `overrideStack(e, getFn)` from the source: replaces the `stack`
property; if `defineProperty` throws (frozen object) it only warns and
leaves the object unchanged. -/
def overrideStack (e : ErrObj) (newStack : String) : ErrObj :=
  if e.frozen then e else { e with stack := newStack }

/-- Embeds `line => !/\/f-promise\//.test(line)`: keep a stack line iff it does
not contain the substring `/f-promise/`.  Substring containment is
expressed through `String.splitOn`. -/
def keepLine (line : String) : Bool :=
  (line.splitOn "/f-promise/").length == 1

/-- Default-policy `fullStackError` (source lines 424-445): for a
non-`Error` value, return it unchanged; for an `Error`, override its
stack with
`fiberStack + '\n' + localStack.split('\n').slice(1).filter(keep).join('\n')`,
where `localStack` is the stack of the `new Error('__f-promise')`
allocated at the call site (a parameter of the model). -/
def fullStackError (localStack : String) : JsValue A → JsValue A
  | .nonError a => .nonError a
  | .errV e =>
      .errV (overrideStack e
        (e.stack ++ "\n" ++
          String.intercalate "\n"
            (((localStack.splitOn "\n").drop 1).filter (fun l => keepLine l))))

/-- The `whole`-policy `fullStackError` (source lines 411-422):
`fiberStack + localStack`, no filtering. -/
def fullStackErrorWhole (localStack : String) : JsValue A → JsValue A
  | .nonError a => .nonError a
  | .errV e => .errV (overrideStack e (e.stack ++ localStack))

/-- Embeds `cleanFiberStack` (source lines 447-461): for a non-`Error` value,
return it unchanged; for an `Error`, override its stack with
`stack.split('\n').filter(keep).join('\n')`. -/
def cleanFiberStack : JsValue A → JsValue A
  | .nonError a => .nonError a
  | .errV e =>
      .errV (overrideStack e
        (String.intercalate "\n" ((e.stack.splitOn "\n").filter (fun l => keepLine l))))

/-! ## The context cell, `wait` and `withContext` -/

/-- The process-wide mutable state the context machinery touches:
`globals.context`. -/
structure GState (C : Type) where
  context : C
deriving Repr, DecidableEq

/-- The body of `wait` around `fibers.yield()` (source lines 58-66):

```js
let cx = globals.context;
try { return fibers.yield(); }
catch (e) { throw (fullStackError && fullStackError(e)) || e; }
finally { globals.context = cx; }
```

`yielded` stands for the whole suspension: it receives the global state
at suspension time and produces the state at resumption time together
with the resumption outcome (`fiber.run` value or `fiber.throwInto`
error).  `errMap` is the error post-processing applied on the catch path
(`fullStackError` under the default/whole policies, identity under
`fast`). -/
def wait (errMap : E → E) (g : GState C)
    (yielded : GState C → GState C × Except E V) : GState C × Except E V :=
  let cx := g.context
  let gr := yielded g
  let r1 : Except E V :=
    match gr.2 with
    | .ok v => .ok v
    | .error e => .error (errMap e)
  ({ gr.1 with context := cx }, r1)

/-- The completion-side save/restore that the `then`/`catch`/`nextTick`
handlers perform around `fiber.run` / `fiber.throwInto`
(source lines 22-35, 38-56):

```js
let cx = globals.context;
try { fiber.run(res); } finally { globals.context = cx; }
```

`resumeFiber` stands for running the resumed fiber until its next
suspension or completion. -/
def resumeRestore (g : GState C) (resumeFiber : GState C → GState C) : GState C :=
  let cx := g.context
  let g1 := resumeFiber g
  { g1 with context := cx }

/-- Embeds `withContext(fn, cx)` (source lines 313-322):

```js
if (!fibers.current) throw new Error('withContext(fn) not allowed outside run()');
const oldContext = globals.context;
globals.context = cx || Object.create(oldContext);
try { return fn(); } finally { globals.context = oldContext; }
```

`insideFiber` models `fibers.current`; `derive` models
`Object.create(oldContext)` (the wrapper built when `cx` is falsy);
`noFiberErr` is the error thrown outside `run()`.  `fn` receives the
global state and may mutate it arbitrarily (in particular by calling
`wait`) before returning or throwing. -/
def withContext (insideFiber : Bool) (noFiberErr : E) (g : GState C)
    (cx : Option C) (derive : C → C)
    (fn : GState C → GState C × Except E V) : GState C × Except E V :=
  if insideFiber then
    let oldContext := g.context
    let g1 : GState C := { g with context := cx.getD (derive oldContext) }
    let gr := fn g1
    ({ gr.1 with context := oldContext }, gr.2)
  else
    (g, .error noFiberErr)

/-- Embeds `context()` (source lines 324-326). -/
def context (g : GState C) : C := g.context

/-! ## `run` -/

/-- The observable outcome of calling `run(fn)` (source lines 69-84):
either the synchronous throw
`new Error('run() should take a function as argument')` when `fn` is
not callable, or an unconditionally returned future that is resolved
with `fn`'s return value or rejected with
`(cleanFiberStack && cleanFiberStack(e)) || e` when `fn` throws. -/
inductive RunResult (A V : Type) where
  | syncInvalidArg : RunResult A V
  | future : Except (JsValue A) V → RunResult A V

/-- Embeds `run(fn)`: `none` models a non-callable argument (`typeof fn !==
'function'`), `some f` a callable body that returns a value or throws a
`JsValue`. -/
def run (fn : Option (Unit → Except (JsValue A) V)) : RunResult A V :=
  match fn with
  | none => .syncInvalidArg
  | some f =>
      .future (match f () with
        | .ok v => .ok v
        | .error e => .error (cleanFiberStack e))

/-! ## Handshake -/

/-- The state captured by `handshake()`'s closure (source lines 187-205):
`callback` records whether a waiter callback is registered (the callback
itself is opaque to the state), `notified` is the buffered-notification
flag. -/
structure HandshakeState where
  callback : Bool
  notified : Bool
deriving Repr, DecidableEq

/-- Outcome of `hs.wait()` as observed by its caller. -/
inductive HsWaitOutcome where
  /-- the thunk threw `new Error('already waiting')` synchronously -/
  | alreadyWaiting : HsWaitOutcome
  /-- a buffered notification was consumed: delivery scheduled at once
  (`setImmediate(cb)`), the wait returns without waiting for a notify -/
  | immediate : HsWaitOutcome
  /-- the caller is registered as the pending waiter and suspends -/
  | blocked : HsWaitOutcome
deriving Repr, DecidableEq

/-- Embeds `hs.wait()` (source lines 191-198):

```js
wait() { return wait(cb => {
  if (callback) throw new Error('already waiting');
  if (notified) setImmediate(cb); else callback = cb;
  notified = false; }); }
```

The throw aborts the thunk before any assignment, so the state is
unchanged on the `alreadyWaiting` path. -/
def hsWait (s : HandshakeState) : HandshakeState × HsWaitOutcome :=
  if s.callback then (s, .alreadyWaiting)
  else if s.notified then ({ callback := false, notified := false }, .immediate)
  else ({ callback := true, notified := false }, .blocked)

/-- Embeds `hs.notify()` (source lines 199-203):

```js
notify() {
  if (!callback) notified = true; else setImmediate(callback);
  callback = undefined; }
```

Returns the new state and whether a registered waiter was released. -/
def hsNotify (s : HandshakeState) : HandshakeState × Bool :=
  if !s.callback then ({ callback := false, notified := true }, false)
  else ({ callback := false, notified := s.notified }, true)

/-- Initial state of a fresh `handshake()`. -/
def hsInit : HandshakeState := { callback := false, notified := false }

/-! ## Funnel -/

/-- The state captured by `funnel(max)`'s closure (source lines 111-171).
`maxEff` is the effective ceiling `_max` computed at creation time;
`queued` is the length of the `queue` of blocked handshakes; `woken`
counts handshakes that have been notified but whose fiber has not yet
resumed inside `overflow` (between `hk.notify()` and `hk.wait()`
returning); `closed` is the closed flag. -/
structure FunnelState where
  maxEff : Int
  active : Nat
  queued : Nat
  woken : Nat
  closed : Bool
deriving Repr, DecidableEq

/-- Embeds `const _max = max === 0 ? exports.funnel.defaultSize : max`
(source line 116): the effective ceiling, computed once from the `max`
argument and the value `defaultSize` has at creation time. -/
def effectiveMax (max defaultSize : Int) : Int :=
  if max = 0 then defaultSize else max

/-- The initial value of `funnel.defaultSize` (source line 172). -/
def funnelDefaultSizeInit : Int := 4

/-- State of a freshly created `funnel(max)` when `funnel.defaultSize`
currently holds `d`. -/
def funnelInit (max d : Int) : FunnelState :=
  { maxEff := effectiveMax max d, active := 0, queued := 0, woken := 0, closed := false }

/-- Outcome of the synchronous prefix of a gate call `fun(fn)`. -/
inductive FunCallOutcome where
  /-- the call threw `new Error('cannot execute: funnel has been closed')` -/
  | throwClosed : FunCallOutcome
  /-- unrestricted case `_max < 0 || _max === Infinity`: `fn` runs with no bookkeeping -/
  | runUncounted : FunCallOutcome
  /-- fast path of `tryEnter`: `active < _max`, admission granted -/
  | admitted : FunCallOutcome
  /-- overflow path: a fresh handshake is pushed and the caller suspends -/
  | blocked : FunCallOutcome
deriving Repr, DecidableEq

/-- The synchronous prefix of `fun(fn)` (source lines 153-161 plus
`tryEnter`/`overflow` up to the first suspension, lines 124-144):
check `closed`; unrestricted if `_max < 0`; admit (`active++`) if
`active < _max`; otherwise push a handshake on the queue and block.
(`_max === Infinity` has no `Int` counterpart; every negative `maxEff`
is the unrestricted case.) -/
def funCallStep (s : FunnelState) : FunnelState × FunCallOutcome :=
  if s.closed then (s, .throwClosed)
  else if s.maxEff < 0 then (s, .runUncounted)
  else if (s.active : Int) < s.maxEff then
    ({ s with active := s.active + 1 }, .admitted)
  else
    ({ s with queued := s.queued + 1 }, .blocked)

/-- The `finally` epilogue of an admitted execution (source lines
129-135): `active--; const hk = queue.shift(); if (hk) hk.notify();`.
Notifying a queued handshake moves it from `queued` to `woken` (its
waiter is registered, so `hsNotify` releases it). -/
def funExitStep (s : FunnelState) : FunnelState :=
  if s.queued > 0 then
    { s with active := s.active - 1, queued := s.queued - 1, woken := s.woken + 1 }
  else { s with active := s.active - 1 }

/-- Outcome of a blocked caller resuming inside `overflow` (source lines
144-151) after its handshake was notified. -/
inductive FunResumeOutcome where
  /-- the waiter observed `closed` and threw `FunnelClosed` -/
  | throwClosed : FunResumeOutcome
  /-- re-entry into `tryEnter` succeeded: `active < _max` -/
  | admitted : FunResumeOutcome
  /-- the freed slot was already taken: `overflow` re-enters, pushing a
  fresh handshake and suspending again -/
  | blocked : FunResumeOutcome
deriving Repr, DecidableEq

/-- A woken waiter resumes in `overflow` after `hk.wait()` (source lines
144-151): it first observes `closed`, then re-attempts `tryEnter`; the
re-attempt may block again because the entry ticket may have been taken
by another caller. -/
def funResumeStep (s : FunnelState) : FunnelState × FunResumeOutcome :=
  if s.closed then ({ s with woken := s.woken - 1 }, .throwClosed)
  else if (s.active : Int) < s.maxEff then
    ({ s with woken := s.woken - 1, active := s.active + 1 }, .admitted)
  else
    ({ s with woken := s.woken - 1, queued := s.queued + 1 }, .blocked)

/-- Embeds `fun.close()` (source lines 163-169): notify every queued handshake
(each waiter becomes woken), clear the queue, set `closed`. -/
def funCloseStep (s : FunnelState) : FunnelState :=
  { s with woken := s.woken + s.queued, queued := 0, closed := true }

/-- The states a funnel created as `funnel(max)` (while
`funnel.defaultSize = d`) can reach under any interleaving of gate
calls, exits of admitted executions, resumptions of woken waiters, and
`close()` calls. -/
inductive FReach (max d : Int) : FunnelState → Prop where
  | init : FReach max d (funnelInit max d)
  | call : ∀ s, FReach max d s → FReach max d (funCallStep s).1
  | exit : ∀ s, FReach max d s → 0 < s.active → FReach max d (funExitStep s)
  | resume : ∀ s, FReach max d s → 0 < s.woken → FReach max d (funResumeStep s).1
  | close : ∀ s, FReach max d s → FReach max d (funCloseStep s)

/-! ## Queue -/

/-- The state of a `Queue<T>` (source lines 220-304) together with the
deliveries it has scheduled.  `q` is `_q` (items may be the `undefined`
end-of-stream sentinel, hence `Option T`); `readerWaiting` records
whether `_callback` is set (the callback itself is opaque);
`pendingWrites` holds the items of `_pendingWrites` in order (each
entry's callback resumes the blocked writer).  `readDelivered` is the
observable sequence of values scheduled for delivery to `read()`
callers, in order; `writersResumed` counts blocked writers whose
callback has been invoked (their `write()` call returned). -/
structure QueueState (T : Type) where
  max : Int
  q : List (Option T)
  readerWaiting : Bool
  pendingWrites : List (Option T)
  readDelivered : List (Option T)
  writersResumed : Nat
deriving Repr, DecidableEq

/-- A fresh `new Queue(max)` (source lines 226-234); `max = -1` when no
capacity was given. -/
def queueInit (max : Int) : QueueState T :=
  { max := max, q := [], readerWaiting := false, pendingWrites := [],
    readDelivered := [], writersResumed := 0 }

/-- Embeds `q.put(item, force)` (source lines 270-282):

```js
if (!this._callback) {
  if (this._max >= 0 && this._q.length >= this._max && !force) return false;
  this._q.push(item);
} else {
  const cb = this._callback; this._callback = undefined;
  setImmediate(() => { cb(this._err, item); });
}
return true;
```

(`this._err` is never assigned anywhere in the class, so deliveries
always carry a null error.) -/
def Queue.put (s : QueueState T) (item : Option T) (force : Bool) :
    QueueState T × Bool :=
  if !s.readerWaiting then
    if 0 ≤ s.max ∧ s.max ≤ (s.q.length : Int) ∧ !force then (s, false)
    else ({ s with q := s.q ++ [item] }, true)
  else
    ({ s with readerWaiting := false,
              readDelivered := s.readDelivered ++ [item] }, true)

/-- Embeds `q.end()` (source lines 284-286): `this.put(undefined, true)`. -/
def Queue.endQ (s : QueueState T) : QueueState T :=
  (Queue.put s none true).1

/-- Outcome of `q.read()` as observed by its caller. -/
inductive ReadOutcome (T : Type) where
  /-- the thunk threw `new Error('already getting')` synchronously -/
  | alreadyGetting : ReadOutcome T
  /-- an item was dequeued and its delivery scheduled -/
  | delivered : Option T → ReadOutcome T
  /-- the queue was empty: the caller registered as `_callback` and
  suspends until a `put`/`write` delivers to it -/
  | blocked : ReadOutcome T
deriving Repr, DecidableEq

/-- Embeds `q.read()` (source lines 236-256): if `_q` is non-empty, shift the
first item and schedule its delivery to this reader; if moreover a
pending write exists, shift it and schedule `wr[0](this._err, wr[1])` —
which resumes the blocked writer (passing it back its own item) without
ever enqueuing that item.  If `_q` is empty, register as the pending
reader.  (The `this._q = []` recycling when the queue empties is a
no-op on the value level.) -/
def Queue.read (s : QueueState T) : QueueState T × ReadOutcome T :=
  if s.readerWaiting then (s, .alreadyGetting)
  else
    match s.q with
    | item :: rest =>
        let s1 : QueueState T :=
          { s with q := rest, readDelivered := s.readDelivered ++ [item] }
        match s1.pendingWrites with
        | _wr :: pws =>
            ({ s1 with pendingWrites := pws,
                       writersResumed := s1.writersResumed + 1 }, .delivered item)
        | [] => (s1, .delivered item)
    | [] => ({ s with readerWaiting := true }, .blocked)

/-- Outcome of `q.write(item)` as observed by its caller. -/
inductive WriteOutcome where
  /-- accepted: `put` took the item; the writer's callback is scheduled and
  `write` returns -/
  | returned : WriteOutcome
  /-- rejected: `put` refused the item (queue full): `[cb, item]` was pushed onto
  `_pendingWrites` and the writer suspends -/
  | blocked : WriteOutcome
deriving Repr, DecidableEq

/-- Embeds `q.write(item)` (source lines 258-268):

```js
return wait(cb => {
  if (this.put(item)) { setImmediate(() => cb(this._err)); }
  else { this._pendingWrites.push([cb, item]); }
});
``` -/
def Queue.write (s : QueueState T) (item : Option T) :
    QueueState T × WriteOutcome :=
  let pr := Queue.put s item false
  if pr.2 then (pr.1, .returned)
  else ({ pr.1 with pendingWrites := pr.1.pendingWrites ++ [item] }, .blocked)

/-- Embeds `q.peek()` (source lines 288-290). -/
def Queue.peek (s : QueueState T) : Option (Option T) := s.q.head?

/-! ## `map`

`map(collection, fn)` (source lines 333-341) spawns one coroutine per
element with `run`, collects the futures with `Promise.all`, and `wait`s
on the combined future.  The coroutines may complete in any order; what
`Promise.all` observes is one settlement event per index.  The model
replays the settlement events in completion order into an index-addressed
result store and reads the store out in index order, exactly as
`Promise.all` fills its result array. -/

/-- One coroutine settlement: future number `i` settled with the value
`f` applied to element `i` of the collection. -/
def mapSettlement (xs : List T) (f : T → R) (i : Nat) : Nat × Option R :=
  (i, xs[i]?.map f)

/-- Record one settlement event into the result store. -/
def applysettlement (store : Nat → Option R) (ev : Nat × Option R) :
    Nat → Option R :=
  fun j => if j = ev.1 then ev.2 else store j

/-- Replay all settlement events, in completion order, into an initially
empty result store. -/
def settleAll (evs : List (Nat × Option R)) : Nat → Option R :=
  evs.foldl applysettlement (fun _ => none)

/-- Embeds `map(collection, fn)` under completion order `order` (a permutation
of the future indices): the value `wait(Promise.all(...))` returns, as
the list of result-array slots in index order. -/
def mapModel (xs : List T) (f : T → R) (order : List Nat) : List (Option R) :=
  (List.range xs.length).map (settleAll (order.map (mapSettlement xs f)))


/-! ## Concrete instances used by the witnesses -/

/-- A concrete coroutine body that throws the non-`Error` value `7`. -/
def throwingBody : Unit → Except (JsValue Nat) Nat :=
  fun _ => .error (.nonError 7)


/-- C2 scenario, step 0: a bounded queue of capacity 1. -/
def c2s0 : QueueState Nat := queueInit 1

/-- C2 scenario, step 1: `write(1)` — `put` accepts, the writer returns. -/
def c2s1 : QueueState Nat := (Queue.write c2s0 (some 1)).1

/-- C2 scenario, step 2: `write(2)` — the queue is full, the writer
blocks with `[cb, 2]` pushed on `_pendingWrites`. -/
def c2s2 : QueueState Nat := (Queue.write c2s1 (some 2)).1

/-- C2 scenario, step 3: `read()` — dequeues `1`, and releases the
blocked writer. -/
def c2s3 : QueueState Nat := (Queue.read c2s2).1

/-- C2 scenario, step 4: the resumed producer issues `write(3)`. -/
def c2s4 : QueueState Nat := (Queue.write c2s3 (some 3)).1

/-- C2 scenario, step 5: `read()` — dequeues `3`. -/
def c2s5 : QueueState Nat := (Queue.read c2s4).1


/-- Concrete queue state for the C6 witness: capacity 1, one queued
item, no waiting reader. -/
def c6state : QueueState Nat :=
  { max := 1, q := [some 5], readerWaiting := false,
    pendingWrites := [], readDelivered := [], writersResumed := 0 }

/-! ## Theorems -/

/-- Fields other than `stack` survive `overrideStack` untouched. -/
theorem overrideStack_fields (e : ErrObj) (ns : String) :
    (overrideStack e ns).eid = e.eid ∧ (overrideStack e ns).ctor = e.ctor ∧
    (overrideStack e ns).message = e.message := by
  unfold overrideStack
  split <;> simp

/-- Claim C1: the current Context after any `wait` call returns equals the
Context the calling coroutine had before the call, on both the success
and the error path (whatever happened to the context cell while the
fiber was suspended, and whatever error post-processing applies);
likewise `withContext(fn, cx)` restores the previous context after `fn`
returns or throws, even when `fn` mutates the context cell internally
(in particular by calling `wait`); the completion handlers' save/restore
around `fiber.run`/`fiber.throwInto` is symmetric in the same way. -/
theorem wait_withContext_restore_context (C E V : Type) (errMap : E → E)
    (g : GState C) (yielded : GState C → GState C × Except E V)
    (insideFiber : Bool) (noFiberErr : E) (cx : Option C) (derive : C → C)
    (fn : GState C → GState C × Except E V)
    (resumeFiber : GState C → GState C) :
    context (wait errMap g yielded).1 = context g ∧
    context (withContext insideFiber noFiberErr g cx derive fn).1 = context g ∧
    context (resumeRestore g resumeFiber) = context g := by
  refine ⟨rfl, ?_, rfl⟩
  cases insideFiber <;> rfl

/-- Claim C4: on a handshake with no registered waiter, `notify()`
buffers one notification so that the next `wait()` returns without
blocking; repeated notifies collapse to a single buffered notification;
and a `wait()` issued while another `wait()` is already pending (it
blocked, registering a waiter) throws `already waiting` and leaves the
handshake state unchanged. -/
theorem handshake_notify_wait (s s1 : HandshakeState)
    (h : s.callback = false) (h1 : (hsWait s1).2 = .blocked) :
    (hsWait (hsNotify s).1).2 = .immediate ∧
    (hsNotify (hsNotify s).1).1 = (hsNotify s).1 ∧
    hsWait ((hsWait s1).1) = ((hsWait s1).1, .alreadyWaiting) := by
  obtain ⟨cb, nt⟩ := s
  dsimp only at h
  subst h
  obtain ⟨cb1, nt1⟩ := s1
  cases cb1 <;> cases nt1 <;> simp [hsWait] at h1
  cases nt <;> exact ⟨rfl, rfl, rfl⟩

/-- Witness for C4 on a fresh handshake. -/
theorem handshake_notify_wait_witness :
    (hsWait (hsNotify hsInit).1).2 = .immediate ∧
    (hsNotify (hsNotify hsInit).1).1 = (hsNotify hsInit).1 ∧
    hsWait ((hsWait hsInit).1) = ((hsWait hsInit).1, .alreadyWaiting) :=
  handshake_notify_wait hsInit hsInit rfl rfl

/-- Claim C7: `run(fn)` throws `InvalidArgument` synchronously exactly
when `fn` is not callable; for a callable `fn` it always returns a
future, and when `fn` throws, the thrown value rejects that future
(post-processed by `cleanFiberStack`) instead of being thrown
synchronously to the caller of `run`. -/
theorem run_rejects_future (A V : Type) (f : Unit → Except (JsValue A) V)
    (e : JsValue A) (hf : f () = .error e) :
    (run none : RunResult A V) = .syncInvalidArg ∧
    (∃ r, run (some f) = .future r) ∧
    run (some f) = .future (.error (cleanFiberStack e)) := by
  refine ⟨rfl, ⟨_, rfl⟩, ?_⟩
  simp [run, hf]

/-- Witness for C7: a body that throws the non-`Error` value `7`. -/
theorem run_rejects_future_witness :
    throwingBody () = .error (.nonError 7) ∧
    ((run none : RunResult Nat Nat) = .syncInvalidArg ∧
      (∃ r, run (some throwingBody) = .future r) ∧
      run (some throwingBody) =
        .future (.error (cleanFiberStack (JsValue.nonError 7)))) :=
  ⟨rfl, run_rejects_future Nat Nat throwingBody (JsValue.nonError 7) rfl⟩

/-- Claim C9: the stack-trace post-processing steps applied by `wait`
(`fullStackError`, under both the default and the `whole` policy) and by
`run` (`cleanFiberStack`) return the same object — identity, constructor
kind and message unchanged, only the stack presentation may differ — and
a value that is not `Error`-shaped passes through completely unchanged. -/
theorem stack_cosmetics_preserve_error (A : Type) (ls : String) (e : ErrObj) (a : A) :
    (∃ e1, fullStackError ls (JsValue.errV e : JsValue A) = .errV e1 ∧
      e1.eid = e.eid ∧ e1.ctor = e.ctor ∧ e1.message = e.message) ∧
    (∃ e2, cleanFiberStack (JsValue.errV e : JsValue A) = .errV e2 ∧
      e2.eid = e.eid ∧ e2.ctor = e.ctor ∧ e2.message = e.message) ∧
    (∃ e3, fullStackErrorWhole ls (JsValue.errV e : JsValue A) = .errV e3 ∧
      e3.eid = e.eid ∧ e3.ctor = e.ctor ∧ e3.message = e.message) ∧
    fullStackError ls (JsValue.nonError a) = JsValue.nonError a ∧
    cleanFiberStack (JsValue.nonError a) = JsValue.nonError a ∧
    fullStackErrorWhole ls (JsValue.nonError a) = JsValue.nonError a := by
  refine ⟨⟨_, rfl, ?_⟩, ⟨_, rfl, ?_⟩, ⟨_, rfl, ?_⟩, rfl, rfl, rfl⟩ <;>
    exact overrideStack_fields e _

/-- Claim C2 (refuted by the code, supporting the code-bug verdict): on
a `Queue` of capacity 1, the producer interleaving
`write(1); write(2)` (blocks) / `read(); write(3); read(); read()`
delivers `1` then `3` to the readers and leaves the third read blocked
forever: `read` releases the blocked writer (its `write` returns) but
never enqueues or delivers the writer's item `2`, so reads do not yield
the written items `1,2,3` in FIFO order. -/
theorem queue_blocked_writer_item_dropped :
    (Queue.write c2s1 (some 2)).2 = .blocked ∧
    (Queue.read c2s2).2 = .delivered (some 1) ∧
    c2s3.writersResumed = 1 ∧ c2s3.q = [] ∧ c2s3.pendingWrites = [] ∧
    (Queue.read c2s4).2 = .delivered (some 3) ∧
    (Queue.read c2s5).2 = .blocked ∧
    c2s5.readDelivered = [some 1, some 3] ∧
    c2s5.readDelivered ≠ [some 1, some 2, some 3] := by
  decide

/-- Claim C6: `put(item, force)` is a synchronous, non-blocking function
of the queue state: when a reader is waiting it delivers the item to it
and returns true (nothing is enqueued); when no reader waits and the
count of queued items is under capacity (`max < 0` meaning unbounded,
or `length < max`) or `force` is set, it enqueues and returns true;
otherwise it rejects, returning false with the state unchanged; and
`end()` is `put(undefined, force=true)`, which always succeeds even at
or over capacity. -/
theorem queue_put_spec (T : Type) (s : QueueState T) (item : Option T)
    (force : Bool) :
    (s.readerWaiting = true →
      Queue.put s item force =
        ({ s with readerWaiting := false,
                  readDelivered := s.readDelivered ++ [item] }, true)) ∧
    (s.readerWaiting = false → (s.max < 0 ∨ (s.q.length : Int) < s.max ∨ force = true) →
      Queue.put s item force = ({ s with q := s.q ++ [item] }, true)) ∧
    (s.readerWaiting = false → 0 ≤ s.max → s.max ≤ (s.q.length : Int) → force = false →
      Queue.put s item force = (s, false)) ∧
    Queue.endQ s = (Queue.put s none true).1 ∧
    (Queue.put s none true).2 = true := by
  refine ⟨?_, ?_, ?_, rfl, ?_⟩
  · intro hr
    simp [Queue.put, hr]
  · intro hr hcap
    simp [Queue.put, hr]
    intro h0 hlen
    rcases hcap with h | h | h
    · omega
    · omega
    · exact h
  · intro hr h0 hlen hf
    simp [Queue.put, hr, hf, h0, hlen]
  · by_cases hr : s.readerWaiting = true
    · simp [Queue.put, hr]
    · simp at hr
      simp [Queue.put, hr]

/-- Witness for C6 at a concrete state: capacity 1, one queued item. -/
theorem queue_put_spec_witness :
    (c6state.readerWaiting = true →
      Queue.put c6state (some 6) false =
        ({ c6state with readerWaiting := false,
                        readDelivered := c6state.readDelivered ++ [some 6] }, true)) ∧
    (c6state.readerWaiting = false →
      (c6state.max < 0 ∨ (c6state.q.length : Int) < c6state.max ∨ false = true) →
      Queue.put c6state (some 6) false = ({ c6state with q := c6state.q ++ [some 6] }, true)) ∧
    (c6state.readerWaiting = false → 0 ≤ c6state.max → c6state.max ≤ (c6state.q.length : Int) →
      false = false → Queue.put c6state (some 6) false = (c6state, false)) ∧
    Queue.endQ c6state = (Queue.put c6state none true).1 ∧
    (Queue.put c6state none true).2 = true :=
  queue_put_spec Nat c6state (some 6) false

/-- No funnel transition changes the effective ceiling computed at
creation time. -/
theorem funnelSteps_preserve_maxEff (s : FunnelState) :
    (funCallStep s).1.maxEff = s.maxEff ∧
    (funExitStep s).maxEff = s.maxEff ∧
    (funResumeStep s).1.maxEff = s.maxEff ∧
    (funCloseStep s).maxEff = s.maxEff := by
  refine ⟨?_, ?_, ?_, rfl⟩
  · unfold funCallStep
    split
    · rfl
    split
    · rfl
    split <;> rfl
  · unfold funExitStep
    split <;> rfl
  · unfold funResumeStep
    split
    · rfl
    split <;> rfl

/-- Every state reachable by a funnel created as `funnel(max)` while
`funnel.defaultSize = d` keeps `maxEff` equal to the value computed at
creation. -/
theorem freach_maxEff (max d : Int) (s : FunnelState) (h : FReach max d s) :
    s.maxEff = effectiveMax max d := by
  induction h with
  | init => rfl
  | call t _ ih => rw [(funnelSteps_preserve_maxEff t).1]; exact ih
  | exit t _ _ ih => rw [(funnelSteps_preserve_maxEff t).2.1]; exact ih
  | resume t _ _ ih => rw [(funnelSteps_preserve_maxEff t).2.2.1]; exact ih
  | close t _ ih => rw [(funnelSteps_preserve_maxEff t).2.2.2]; exact ih

/-- In every reachable funnel state with a non-negative effective
ceiling, the active count is bounded by the ceiling. -/
theorem freach_active_le (max d : Int) (s : FunnelState) (h : FReach max d s)
    (hm : 0 ≤ effectiveMax max d) : (s.active : Int) ≤ effectiveMax max d := by
  induction h with
  | init => simpa [funnelInit] using hm
  | call t ht ih =>
      have hmx := freach_maxEff max d t ht
      unfold funCallStep
      split
      · exact ih
      split
      · exact ih
      split
      next hlt => simp only []; push_cast; rw [hmx] at hlt; omega
      · exact ih
  | exit t ht hpos ih =>
      unfold funExitStep
      split <;> simp only [] <;> omega
  | resume t ht hpos ih =>
      have hmx := freach_maxEff max d t ht
      unfold funResumeStep
      split
      · exact ih
      split
      next hlt => simp only []; push_cast; rw [hmx] at hlt; omega
      · exact ih
  | close t ht ih => exact ih

/-- Claim C3: for a funnel whose effective ceiling is non-negative, the
active count never exceeds the ceiling in any reachable state; and once
closed, a gate call throws without admitting (state unchanged), a woken
waiter throws without admitting (its resumption leaves the active count
unchanged), and closing again keeps the funnel closed. -/
theorem funnel_active_bounded (max d : Int) (s : FunnelState)
    (h : FReach max d s) (hm : 0 ≤ effectiveMax max d) :
    (s.active : Int) ≤ effectiveMax max d ∧
    (s.closed = true →
      funCallStep s = (s, .throwClosed) ∧
      (funResumeStep s).2 = .throwClosed ∧
      (funResumeStep s).1.active = s.active ∧
      (funCloseStep s).closed = true) := by
  refine ⟨freach_active_le max d s h hm, ?_⟩
  intro hc
  refine ⟨?_, ?_, ?_, rfl⟩
  · simp [funCallStep, hc]
  · simp [funResumeStep, hc]
  · simp [funResumeStep, hc]

/-- Witness for C3: a `funnel(1)` (default size 4) that admitted one
caller, had a second block, and was then closed. -/
theorem funnel_active_bounded_witness :
    (((funCloseStep (funCallStep (funCallStep (funnelInit 1 4)).1).1).active : Int) ≤
        effectiveMax 1 4) ∧
    ((funCloseStep (funCallStep (funCallStep (funnelInit 1 4)).1).1).closed = true →
      funCallStep (funCloseStep (funCallStep (funCallStep (funnelInit 1 4)).1).1) =
        ((funCloseStep (funCallStep (funCallStep (funnelInit 1 4)).1).1), .throwClosed) ∧
      (funResumeStep (funCloseStep (funCallStep (funCallStep (funnelInit 1 4)).1).1)).2 =
        .throwClosed ∧
      (funResumeStep (funCloseStep (funCallStep (funCallStep (funnelInit 1 4)).1).1)).1.active =
        (funCloseStep (funCallStep (funCallStep (funnelInit 1 4)).1).1).active ∧
      (funCloseStep (funCloseStep (funCallStep (funCallStep (funnelInit 1 4)).1).1)).closed =
        true) :=
  funnel_active_bounded 1 4 _
    (FReach.close _ (FReach.call _ (FReach.call _ FReach.init)))
    (by decide)

/-- Claim C5: `close()` sets the closed flag, drains the waiter queue
(every queued waiter is notified, to observe `closed` and fail), and
leaves the active count — the already-admitted executions — untouched;
the closed flag is permanent under every transition; with the flag set,
a gate call throws `FunnelClosed` with no state change and a released
waiter throws `FunnelClosed`; and the exit epilogue of an admitted
execution behaves identically whether or not the funnel is closed. -/
theorem funnel_close_drains_and_persists (s t : FunnelState)
    (h : s.closed = true) :
    (funCloseStep t).closed = true ∧
    (funCloseStep t).queued = 0 ∧
    (funCloseStep t).woken = t.woken + t.queued ∧
    (funCloseStep t).active = t.active ∧
    (funCallStep t).1.closed = t.closed ∧
    (funExitStep t).closed = t.closed ∧
    (funResumeStep t).1.closed = t.closed ∧
    funCallStep s = (s, .throwClosed) ∧
    (funResumeStep s).2 = .throwClosed ∧
    (funExitStep { t with closed := true }).active = (funExitStep t).active ∧
    (funExitStep { t with closed := true }).queued = (funExitStep t).queued ∧
    (funExitStep { t with closed := true }).woken = (funExitStep t).woken := by
  refine ⟨rfl, rfl, rfl, rfl, ?_, ?_, ?_, ?_, ?_, ?_, ?_, ?_⟩
  · unfold funCallStep
    split
    · rfl
    split
    · rfl
    split <;> rfl
  · unfold funExitStep
    split <;> rfl
  · unfold funResumeStep
    split
    · rfl
    split <;> rfl
  · simp [funCallStep, h]
  · simp [funResumeStep, h]
  · unfold funExitStep
    split <;> rfl
  · unfold funExitStep
    split <;> rfl
  · unfold funExitStep
    split <;> rfl

/-- Witness for C5: the closed state reached by closing a funnel with a
blocked waiter, paired with an arbitrary pre-close state. -/
theorem funnel_close_drains_witness :
    (funCloseStep (funnelInit 2 4)).closed = true ∧
    (funCloseStep (funnelInit 2 4)).queued = 0 ∧
    (funCloseStep (funnelInit 2 4)).woken =
      (funnelInit 2 4).woken + (funnelInit 2 4).queued ∧
    (funCloseStep (funnelInit 2 4)).active = (funnelInit 2 4).active ∧
    (funCallStep (funnelInit 2 4)).1.closed = (funnelInit 2 4).closed ∧
    (funExitStep (funnelInit 2 4)).closed = (funnelInit 2 4).closed ∧
    (funResumeStep (funnelInit 2 4)).1.closed = (funnelInit 2 4).closed ∧
    funCallStep (funCloseStep (funnelInit 1 4)) =
      ((funCloseStep (funnelInit 1 4)), .throwClosed) ∧
    (funResumeStep (funCloseStep (funnelInit 1 4))).2 = .throwClosed ∧
    (funExitStep { (funnelInit 2 4) with closed := true }).active =
      (funExitStep (funnelInit 2 4)).active ∧
    (funExitStep { (funnelInit 2 4) with closed := true }).queued =
      (funExitStep (funnelInit 2 4)).queued ∧
    (funExitStep { (funnelInit 2 4) with closed := true }).woken =
      (funExitStep (funnelInit 2 4)).woken :=
  funnel_close_drains_and_persists (funCloseStep (funnelInit 1 4)) (funnelInit 2 4) rfl

/-- Claim C10: a funnel created with `max == 0` takes its ceiling from
the value `funnel.defaultSize` holds at creation time (initially `4`);
no funnel transition ever changes the ceiling of an existing funnel, so
a later assignment to `defaultSize` leaves it untouched — only a funnel
created after the assignment observes the new default. -/
theorem funnel_defaultSize_read_at_creation (d d2 : Int) (s : FunnelState)
    (h : FReach 0 d s) :
    (funnelInit 0 d).maxEff = d ∧
    s.maxEff = d ∧
    (funnelInit 0 d2).maxEff = d2 ∧
    funnelDefaultSizeInit = 4 := by
  refine ⟨?_, ?_, ?_, rfl⟩
  · simp [funnelInit, effectiveMax]
  · rw [freach_maxEff 0 d s h]
    simp [effectiveMax]
  · simp [funnelInit, effectiveMax]

/-- Witness for C10: a funnel created with `max = 0` while the default
was `4`, after one gate call, against a later default of `7`. -/
theorem funnel_defaultSize_read_at_creation_witness :
    (funnelInit 0 4).maxEff = 4 ∧
    (funCallStep (funnelInit 0 4)).1.maxEff = 4 ∧
    (funnelInit 0 7).maxEff = 7 ∧
    funnelDefaultSizeInit = 4 :=
  funnel_defaultSize_read_at_creation 4 7 _ (FReach.call _ FReach.init)

/-- Recording one more settlement only changes the slot it addresses. -/
theorem settleAll_concat (R : Type) (evs : List (Nat × Option R))
    (ev : Nat × Option R) (j : Nat) :
    settleAll (evs ++ [ev]) j = if j = ev.1 then ev.2 else settleAll evs j := by
  simp [settleAll, List.foldl_append, applysettlement]

/-- When every settlement addresses a distinct slot, each slot ends up
holding the value its own settlement carried, whatever the order the
settlements arrived in. -/
theorem settleAll_eq_of_mem (R : Type) (evs : List (Nat × Option R)) :
    ∀ (j : Nat) (v : Option R), (evs.map Prod.fst).Nodup → (j, v) ∈ evs →
      settleAll evs j = v := by
  induction evs using List.reverseRecOn with
  | nil => intro j v _ hm; simp at hm
  | append_singleton l e ih =>
      intro j v hnd hm
      rw [List.map_append, List.nodup_append] at hnd
      rw [settleAll_concat]
      rcases List.mem_append.mp hm with hl | he
      · have hj : j ≠ e.1 := by
          intro hje
          have hjl : j ∈ l.map Prod.fst := List.mem_map_of_mem Prod.fst hl
          exact hnd.2.2 hjl (by simp [hje])
        rw [if_neg hj]
        exact ih j v hnd.1 hl
      · have he2 : (j, v) = e := by simpa using he
        rw [← he2]
        simp

/-- Claim C8: `map([x1..xn], f)` returns `[f(x1),...,f(xn)]` in input
order: whatever order the spawned coroutines complete in (any
permutation of the future indices), the array assembled slot-by-slot
from the settlement events equals the input collection mapped by `f`,
position for position. -/
theorem map_preserves_input_order (T R : Type) (xs : List T) (f : T → R)
    (order : List Nat) (hperm : order.Perm (List.range xs.length)) :
    mapModel xs f order = xs.map (fun x => some (f x)) := by
  have hnd : order.Nodup :=
    (List.Perm.nodup_iff hperm).mpr (List.nodup_range xs.length)
  have hkeys : (order.map (mapSettlement xs f)).map Prod.fst = order := by
    simp [List.map_map, mapSettlement, Function.comp_def]
  have hpt : ∀ i, i < xs.length →
      settleAll (order.map (mapSettlement xs f)) i = xs[i]?.map f := by
    intro i hi
    apply settleAll_eq_of_mem
    · rw [hkeys]; exact hnd
    · have hio : i ∈ order := hperm.mem_iff.mpr (List.mem_range.mpr hi)
      exact List.mem_map_of_mem (mapSettlement xs f) hio
  unfold mapModel
  apply List.ext_getElem?
  intro i
  rw [List.getElem?_map, List.getElem?_map]
  by_cases hi : i < xs.length
  · rw [List.getElem?_range hi, List.getElem?_eq_getElem hi]
    simp [hpt i hi, List.getElem?_eq_getElem hi]
  · have hn : xs.length ≤ i := le_of_not_lt hi
    rw [List.getElem?_eq_none (by simpa using hn), List.getElem?_eq_none hn]
    rfl

/-- Witness for C8: three elements completing in the order 2, 0, 1
still produce the results in input order. -/
theorem map_preserves_input_order_witness :
    ([2, 0, 1] : List Nat).Perm (List.range ([10, 20, 30] : List Nat).length) ∧
    mapModel [10, 20, 30] (fun x => x + 1) [2, 0, 1] =
      ([10, 20, 30] : List Nat).map (fun x => some (x + 1)) :=
  ⟨by decide, map_preserves_input_order Nat Nat [10, 20, 30] (fun x => x + 1)
    [2, 0, 1] (by decide)⟩
